import Mathlib

/-!
Shallow embedding of `src/libclient.py` (class `Message`), the client side of a
length-prefixed framing protocol with AES-GCM authenticated encryption, a
monotonic sequence check, and an RSA-OAEP-wrapped session key on login.

Modelling conventions:
* a Python `bytes` value is a `List Nat` (each element a byte value);
* Python exceptions are modelled with `Except (PyError × Message) _`; the
  `Message` component of an error is the state of the object at the moment the
  exception propagates (Python does not roll back attribute mutations);
* the socket `recv` outcome is passed in as `Option (List Nat)`:
  `none` models a `BlockingIOError` (caught, `pass`), `some []` a zero-length
  read, `some d` received data `d`;
* randomness (`Random.get_random_bytes`) is passed in explicitly
  (`freshKey` for the 32-byte session key, `rnd` for the 6-byte header salt);
* the AES-GCM and RSA-OAEP primitives are external library collaborators, so
  they are parameters, bundled in the `Crypto` structure.
-/

set_option linter.unusedVariables false

/-- The Python exceptions that the embedded code can raise.
`peerClosed` stands for `RuntimeError("Peer closed.")` (line 54),
`typeError` for calling a non-callable (the rebound `len` in
`process_response`), `unboundLocalError` for reading a function-local name
before its assignment (the shadowed `len` in `_create_message`),
`valueError` for an invalid selector mode. -/
inductive PyError where
  | typeError
  | peerClosed
  | unboundLocalError
  | valueError
  deriving DecidableEq

/-- State of a `Message` object (`src/libclient.py` lines 12-29), restricted to
the fields the protocol logic touches.  `registered` / `sockOpen` model the
selector registration and the live socket that `close` (lines 158-174)
releases; `events` models the selector interest mask (1 = read, 2 = write,
3 = read|write) set by `_set_selector_events_mask`. -/
structure Message where
  _recv_buffer : List Nat
  _send_buffer : List Nat
  _request_queued : Bool
  key : Option (List Nat)
  _sqn : Nat
  _rcvsqn : Nat
  registered : Bool
  sockOpen : Bool
  events : Nat
  deriving DecidableEq

/-- `Message.__init__` (lines 12-29): empty buffers, no key, both sequence
counters at zero; the connection is registered with the selector (read|write)
and the socket is open. -/
def Message.init : Message :=
  { _recv_buffer := []
    _send_buffer := []
    _request_queued := false
    key := none
    _sqn := 0
    _rcvsqn := 0
    registered := true
    sockOpen := true
    events := 3 }

/-- The external cryptographic primitives (pycryptodome), parameters of the
model: `gcmEnc key nonce plaintext` is the AES-GCM ciphertext,
`gcmMac key nonce aad ciphertext` the 12-byte tag of
`encrypt_and_digest` after `update(aad)`, and `rsaEnc key` the PKCS1-OAEP
encryption of `key` under the public key loaded from `pubkey.pem`.
`_create_message` receives them, though its only uses of them (lines
106-126) turn out to be unreachable. -/
structure Crypto where
  gcmEnc : List Nat → List Nat → List Nat → List Nat
  gcmMac : List Nat → List Nat → List Nat → List Nat → List Nat
  rsaEnc : List Nat → List Nat

/-- Python `int.from_bytes(bs, byteorder='big')`. -/
def fromBytesBE (bs : List Nat) : Nat :=
  bs.foldl (fun a b => a * 256 + b) 0

/-- `Message._read` (lines 43-54): a would-block condition is swallowed, data
is appended to `_recv_buffer`, and a zero-length read raises
`RuntimeError("Peer closed.")`. -/
def Message._read (st : Message) (recv : Option (List Nat)) :
    Except (PyError × Message) Message :=
  match recv with
  | none => .ok st
  | some [] => .error (.peerClosed, st)
  | some d => .ok { st with _recv_buffer := st._recv_buffer ++ d }

/-- `Message._set_selector_events_mask` (lines 31-41). -/
def Message._set_selector_events_mask (st : Message) (mode : String) :
    Except (PyError × Message) Message :=
  if mode = "r" then .ok { st with events := 1 }
  else if mode = "w" then .ok { st with events := 2 }
  else if mode = "rw" then .ok { st with events := 3 }
  else .error (.valueError, st)

/-- `Message.close` (lines 158-174): unregister from the selector (exceptions
are printed and swallowed) and close/release the socket. -/
def Message.close (st : Message) : Message :=
  { st with registered := false, sockOpen := false }

/-- `Message._create_message` (lines 67-130).  Lines 70-77 execute: on
`action == "login"` the local length gains 256 for the wrapped key, the local
type field becomes `b'\x00\x00'`, and `self.key` IS set to the fresh 32-byte
session key (line 77 runs before the raise).  Then line 80,
`payload_length = len(value)`, raises `UnboundLocalError` on EVERY call:
line 99's assignment `len = msg_length.to_bytes(2, byteorder='big')` makes
`len` local to the whole function body, and at line 80 that local is still
unassigned.  Lines 80-130 — header construction, AES-GCM encryption, the
RSA-OAEP key wrap using the `Crypto` primitives, and the `self._sqn += 1` on
line 128 — are unreachable: no frame is ever returned and the send counter is
never incremented.  The error carries the state at the raise: `self.key`
updated on login, everything else (in particular `_sqn`) unchanged. -/
def Message._create_message (c : Crypto) (st : Message) (action : String)
    (value : List Nat) (freshKey : List Nat) (rnd : List Nat) :
    Except (PyError × Message) (Message × List Nat) :=
  let isLogin := action == "login"
  let msg_length0 : Nat := if isLogin then 256 else 0
  let _typ : List Nat := if isLogin then [0, 0] else []
  let st1 : Message := if isLogin then { st with key := some freshKey } else st
  .error (.unboundLocalError, st1)

/-- `Message.process_response` (lines 183-229).  The local slices mirror lines
186-194; in particular line 191, `len = header[4:6]`, REBINDS the local name
`len` to a `bytes` value, so line 197, `msg_len = len(msg)`, calls that
`bytes` object and raises `TypeError` on every input; lines 198-229 (length
check, sequence check, AEAD verification, counter/buffer update) are
unreachable.  The state carried by the error is `st` unchanged: nothing before
line 197 mutates the object. -/
def Message.process_response (st : Message) :
    Except (PyError × Message) (Message × List Nat) :=
  let msg := st._recv_buffer
  let header := msg.take 16
  let authtag := msg.drop (msg.length - 12)
  let encrypted_payload := (msg.take (msg.length - 12)).drop 16
  let ver := header.take 2
  let typ := (header.drop 2).take 2
  let lenField := (header.drop 4).take 2
  let sqn := (header.drop 6).take 2
  let rnd := (header.drop 8).take 6
  let rsv := (header.drop 14).take 2
  .error (.typeError, st)

/-- The length the header declares for an inbound buffer, as
`process_response` would read it: `header = msg[0:16]`, `header[4:6]`,
big-endian (lines 186, 191, 198). -/
def declaredLen (msg : List Nat) : Nat :=
  fromBytesBE (((msg.take 16).drop 4).take 2)

/-- `Message.read` (lines 138-145): one receive, then `process_response` on
whatever the buffer holds, then (dead code, since `process_response` always
raises) interest-mask switching when the buffer is empty. -/
def Message.read (st : Message) (recv : Option (List Nat)) :
    Except (PyError × Message) Message :=
  match st._read recv with
  | .error e => .error e
  | .ok st1 =>
    match st1.process_response with
    | .error e => .error e
    | .ok (st2, _payload) =>
      if st2._recv_buffer = [] then st2._set_selector_events_mask "w" else .ok st2

/-- Outcome of one read-readiness event as seen by the application's event
loop: the connection either survives or is torn down by an error. -/
inductive DriverOutcome where
  | alive (st : Message)
  | torndown (e : PyError) (final : Message)
  deriving DecidableEq

/-- Modelled from the spec: the reactor loop that drives `Message` lives in
the application, not under `src/`.  Spec section 4.4: "a zero-length read is
fatal (PeerClosed) — the driver tears down and deregisters the connection,
discarding any partial buffer"; section 7: "each triggers orderly teardown
(deregister + release socket)".  The loop invokes `Message.read` on a
read-ready notification and, on any propagated error, performs teardown via
`Message.close` and drops the connection object (which discards its buffers). -/
def driverOnReadReady (st : Message) (recv : Option (List Nat)) : DriverOutcome :=
  match st.read recv with
  | .ok st' => .alive st'
  | .error (e, stE) => .torndown e (Message.close stE)

/-- A well-formed 16-byte inbound frame header (as an attacker or a correct
peer could send one): version 0x0100, type 0, declared length 16, sqn 1,
6 salt bytes, 2 reserved zero bytes.  Its sqn bytes (positions 6..8) read
as 1. -/
def RFRAME : List Nat := [1, 0, 0, 0, 0, 16, 0, 1, 7, 7, 7, 7, 7, 7, 0, 0]

/-- A receiver that has already accepted sequence number 1: replaying an
inbound frame with sqn 1 to it is the replay scenario. -/
def ST5 : Message := { Message.init with _rcvsqn := 1 }

/-- Fifteen bytes of an inbound frame whose header declares a total length of
100: a strict prefix of a frame. -/
def SHORTBUF : List Nat := [1, 0, 0, 0, 0, 100, 0, 1, 9, 9, 9, 9, 9, 9, 0]

/-- A connection whose inbound buffer holds that incomplete frame. -/
def ST8 : Message := { Message.init with _recv_buffer := SHORTBUF }

/-- `ST8` after one more received byte: the buffer holds 16 of the declared
100 bytes. -/
def ST8f : Message := { ST8 with _recv_buffer := SHORTBUF ++ [0] }

/-- A state used to check `declaredLen`-mismatch handling: one buffered byte,
declared length 0. -/
def ST6 : Message := { Message.init with _recv_buffer := [0] }

/-- A connection with a three-byte fragment of a frame in its inbound buffer. -/
def ST9 : Message := { Message.init with _recv_buffer := [1, 2, 3] }

/-- C10: in `process_response` the local name `len` is rebound to the 2-byte
length slice of the header (line 191) before `msg_len = len(msg)` (line 197)
executes, so for every inbound buffer the call raises `TypeError` with the
object state unchanged; no inbound message is ever successfully decoded and
no payload ever surfaces to the caller. -/
theorem process_response_always_raises_typeError (st : Message) :
    st.process_response = .error (.typeError, st) := rfl

/-- C1 (the code at the claim's input): the round trip
`decode(encode(P, K, seq), K, seq-1)` never returns `P` because it cannot
even start — `_create_message` raises `UnboundLocalError` at line 80
(`payload_length = len(value)`: line 99's assignment makes `len` local to the
whole function) before any frame exists, so for every plaintext `P`, key `K`
and salt the login encode from the initial state errors with the key
installed but no frame; and `process_response` never returns any plaintext
on any state, as it raises `TypeError` at its own shadowed `len`. -/
theorem roundTrip_never_happens (c : Crypto) (P K rnd : List Nat) (st : Message) :
    Message._create_message c Message.init "login" P K rnd =
      .error (.unboundLocalError, { Message.init with key := some K }) ∧
    (∀ stO pl, Message.process_response st ≠ .ok (stO, pl)) :=
  ⟨rfl, fun _ _ h => Except.noConfusion h⟩

/-- C2 (the code at the claim's input): the tamper-detection property cannot
hold.  Decoding any buffer with one byte mutated (`frame.set i b`) raises
`TypeError` at the shadowed length check, never an AEAD
`AuthenticationFailure`; moreover no "frame produced by encode" exists to
mutate, since every `_create_message` call raises `UnboundLocalError` at
line 80. -/
theorem tamper_never_authFailure (c : Crypto) (st : Message) (frame : List Nat)
    (i b : Nat) :
    Message.process_response { st with _recv_buffer := frame.set i b } =
      .error (.typeError, { st with _recv_buffer := frame.set i b }) ∧
    (∀ P K rnd, Message._create_message c Message.init "login" P K rnd =
      .error (.unboundLocalError, { Message.init with key := some K })) :=
  ⟨rfl, fun _ _ _ => rfl⟩

/-- C3 (the code at the claim's input): no frame with the described shape is
ever produced — `_create_message` raises `UnboundLocalError` at line 80
(`payload_length = len(value)` reads the function-local `len` that line 99
assigns) on every call, for every action, before building any header; the
claimed length invariant holds only vacuously, while the code's own comments
(lines 88-94) and its length arithmetic show frame production was intended. -/
theorem no_frame_is_ever_produced (c : Crypto) (st : Message) (action : String)
    (value freshKey rnd : List Nat) :
    Message._create_message c st action value freshKey rnd =
      .error (.unboundLocalError,
        if action == "login" then { st with key := some freshKey } else st) ∧
    (∀ out, Message._create_message c st action value freshKey rnd ≠ .ok out) :=
  ⟨rfl, fun _ h => Except.noConfusion h⟩

/-- C4 (the code on every input): the send counter does start at 0
(`Message.init`), but no call to `_create_message` ever embeds the
pre-incremented value or increments the counter — every call raises
`UnboundLocalError` at line 80, before the header is built (line 104) and
before `self._sqn += 1` (line 128); the state carried by the raise still has
the caller's `_sqn`, so the counter never reaches the value the claim says
gets embedded, and no first frame carrying sequence number 1 exists. -/
theorem create_message_never_increments_sqn (c : Crypto) (st : Message)
    (action : String) (value freshKey rnd : List Nat) :
    Message.init._sqn = 0 ∧
    Message._create_message c st action value freshKey rnd =
      .error (.unboundLocalError,
        if action == "login" then { st with key := some freshKey } else st) ∧
    (if action == "login" then { st with key := some freshKey } else st)._sqn =
      st._sqn := by
  refine ⟨rfl, rfl, ?_⟩
  rcases Bool.eq_false_or_eq_true (action == "login") with hA | hA <;> simp [hA]

/-- C5 (the code at the claim's input): an inbound frame whose sequence
number (header bytes 6..8, as `process_response` slices them) is not above
the receiver's `_rcvsqn` — a replay — is not rejected with a replay/reorder
error: `process_response` raises `TypeError` at the shadowed length check
before the sequence comparison (line 205) can run, and even as written that
branch only prints and calls `close()` without raising or returning. -/
theorem replay_not_rejected_with_replay_error (st : Message) (frame : List Nat)
    (hr : fromBytesBE (((frame.take 16).drop 6).take 2) ≤ st._rcvsqn) :
    Message.process_response { st with _recv_buffer := frame } =
      .error (.typeError, { st with _recv_buffer := frame }) := rfl

/-- Witness for C5: the 16-byte inbound frame `RFRAME` carries sqn 1,
replayed at the receiver `ST5` whose `_rcvsqn` is already 1. -/
theorem replay_not_rejected_with_replay_error_witness :
    fromBytesBE (((RFRAME.take 16).drop 6).take 2) ≤ ST5._rcvsqn ∧
    Message.process_response { ST5 with _recv_buffer := RFRAME } =
      .error (.typeError, { ST5 with _recv_buffer := RFRAME }) :=
  ⟨by decide, replay_not_rejected_with_replay_error ST5 RFRAME (by decide)⟩

/-- C6 (the code at the claim's input): an inbound buffer whose declared
length differs from its actual length does not fail with a framing error —
`process_response` raises `TypeError` at the very statement that was meant to
compute the actual length (`msg_len = len(msg)`, line 197), so the framing
comparison on line 198 never executes. -/
theorem length_mismatch_decode_raises_typeError (st : Message)
    (h : declaredLen st._recv_buffer ≠ st._recv_buffer.length) :
    st.process_response = .error (.typeError, st) := rfl

/-- Witness for C6: a one-byte buffer whose declared length reads as 0. -/
theorem length_mismatch_decode_raises_typeError_witness :
    declaredLen ST6._recv_buffer ≠ ST6._recv_buffer.length ∧
    ST6.process_response = .error (.typeError, ST6) :=
  ⟨by decide, length_mismatch_decode_raises_typeError ST6 (by decide)⟩

/-- C7 (the code on every input): decode errors are NOT fatal as claimed.
`process_response` raises `TypeError` carrying the state unchanged — in
particular the connection is still registered and the socket still open, so
the teardown that `Message.close` performs (second and third conjuncts: it
deregisters and releases the socket) never happened inside
`process_response`; the three named error branches of the source are
unreachable, and even their code lacks `return` statements, so reaching them
would continue processing the bad frame. -/
theorem decode_error_no_teardown (st : Message) :
    st.process_response = .error (.typeError, st) ∧
    (Message.close st).registered = false ∧
    (Message.close st).sockOpen = false :=
  ⟨rfl, rfl, rfl⟩

/-- C8 counterexample: with 15 bytes of a frame declaring 100 bytes buffered,
one more received byte makes `Message.read` hand the 16-byte buffer straight
to `process_response`: `read` surfaces exactly the `TypeError` that
`process_response` raises on that 16-byte buffer, even though the buffer
holds far less than the declared length — refuting "handed to decode only
once the buffer holds at least the declared length". -/
theorem read_short_buffer_invokes_decode_cex :
    ST8f._recv_buffer.length = 16 ∧ declaredLen ST8f._recv_buffer = 100 ∧
    Message.process_response ST8f = .error (.typeError, ST8f) ∧
    Message.read ST8 (some [0]) = .error (.typeError, ST8f) :=
  ⟨rfl, rfl, rfl, rfl⟩

/-- C8 as amended: on every read-ready event that delivers data, `read` hands
the inbound buffer to `process_response` immediately and unconditionally —
there is no check that the buffer holds the declared length, so partial
frames are parsed (and hit the `TypeError` that `process_response` raises on
the appended buffer, which `read` re-raises) rather than accumulated. -/
theorem read_unconditionally_invokes_process_response (st : Message) (d : List Nat)
    (hd : d ≠ []) :
    Message.process_response { st with _recv_buffer := st._recv_buffer ++ d } =
      .error (.typeError, { st with _recv_buffer := st._recv_buffer ++ d }) ∧
    Message.read st (some d) =
      .error (.typeError, { st with _recv_buffer := st._recv_buffer ++ d }) := by
  cases d with
  | nil => exact absurd rfl hd
  | cons a t => exact ⟨rfl, rfl⟩

/-- Witness for the amended C8: one received byte on a fresh connection. -/
theorem read_unconditionally_invokes_process_response_witness :
    ([1] : List Nat) ≠ [] ∧
    (Message.process_response
        { Message.init with _recv_buffer := Message.init._recv_buffer ++ [1] } =
      .error (.typeError,
        { Message.init with _recv_buffer := Message.init._recv_buffer ++ [1] }) ∧
    Message.read Message.init (some [1]) =
      .error (.typeError,
        { Message.init with _recv_buffer := Message.init._recv_buffer ++ [1] })) :=
  ⟨by decide, read_unconditionally_invokes_process_response Message.init [1] (by decide)⟩

/-- C9: a zero-length read raises the peer-closed error from `_read` (line
54) with the buffer untouched, before `process_response` could run (the
result is NOT the `TypeError` that every `process_response` call raises, so
no parse of the partial buffer was attempted); the driver loop — modelled
from the spec, since it is not under `src/` — then tears the connection down
via `close`, which deregisters it and releases the socket, discarding the
partial buffer with the connection. -/
theorem zero_length_read_peerClosed_teardown (st : Message)
    (h : st._recv_buffer ≠ []) :
    Message.read st (some []) = .error (.peerClosed, st) ∧
    Message.read st (some []) ≠ .error (.typeError, st) ∧
    driverOnReadReady st (some []) = .torndown .peerClosed (Message.close st) ∧
    (Message.close st).registered = false ∧
    (Message.close st).sockOpen = false := by
  refine ⟨rfl, ?_, rfl, rfl, rfl⟩
  intro hEq
  have h2 := congrArg (fun x =>
    match x with
    | Except.error (e, _) => e
    | Except.ok _ => PyError.typeError) hEq
  exact PyError.noConfusion h2

/-- Witness for C9: zero-length read with a three-byte fragment buffered. -/
theorem zero_length_read_peerClosed_teardown_witness :
    ST9._recv_buffer ≠ [] ∧
    (Message.read ST9 (some []) = .error (.peerClosed, ST9) ∧
      Message.read ST9 (some []) ≠ .error (.typeError, ST9) ∧
      driverOnReadReady ST9 (some []) = .torndown .peerClosed (Message.close ST9) ∧
      (Message.close ST9).registered = false ∧
      (Message.close ST9).sockOpen = false) :=
  ⟨by decide, zero_length_read_peerClosed_teardown ST9 (by decide)⟩
